import Mathlib

/-!
Verification of the inventory-aging normalization pipeline in variance.py.

The embedding below mirrors the pandas pipeline of the repository:
load_data (per-outlet spreadsheet reads, concatenation, Outlet tagging),
transform_data (two melts, an inner merge on Outlet/Category/Aging Bucket,
a categorical cast of the bucket column, fillna for the two metrics), and
the groupby-sum that the script stores in df_filtered_long_grouped.

Modelling conventions:
- a spreadsheet cell in a metric column is Option Rat (none models NaN);
- Python substring test (pat in s) and s.replace(pat, rep) are implemented
  over the character lists of the strings (strContains / strReplace);
- the pd.Categorical cast sends a bucket label outside the canonical list
  to none (modelling NaN);
- pd.merge with the default how keeps only keys present on both sides and
  emits, for each left row, the matching right rows in order (inner join);
- groupby on the categorical bucket uses the pandas default observed=False,
  so the grouped result is reindexed to the product of the Category levels
  and all four bucket categories, empty groups summing to zero; the
  Category levels are factorized over every row, while rows whose bucket
  key is NaN are excluded from the group sums (default dropna=True), so a
  category observed only through NaN-bucket rows still indexes the output
  with four zero rows;
- transform_data returns none to model the uncaught KeyError that
  df.melt raises when an id_vars column (Outlet or Category) is absent;
- row order of pandas group keys (sorted) is not modelled: the dedup of
  observed categories keeps a different occurrence order, and no theorem
  below depends on the order of grouped rows.
-/

/-- Python substring containment test (pat in l) on character lists. -/
def containsSub : List Char → List Char → Bool
  | l, pat =>
    if pat.isPrefixOf l then true
    else match l with
      | [] => false
      | _ :: as => containsSub as pat

/-- Python replace on character lists, leftmost non-overlapping occurrences,
driven by a fuel argument that starts at the length of the list. -/
def replaceSubAux : Nat → List Char → List Char → List Char → List Char
  | 0, l, _, _ => l
  | _ + 1, [], _, _ => []
  | n + 1, a :: as, pat, rep =>
    if pat.isPrefixOf (a :: as) && !pat.isEmpty then
      rep ++ replaceSubAux n ((a :: as).drop pat.length) pat rep
    else
      a :: replaceSubAux n as pat rep

/-- Python substring test (pat in s) for strings. -/
def strContains (s pat : String) : Bool :=
  containsSub s.data pat.data

/-- Python s.replace(pat, rep) for strings (regex=False in the source). -/
def strReplace (s pat rep : String) : String :=
  ⟨replaceSubAux s.data.length s.data pat.data rep.data⟩

/-- Wide-format row: the Outlet tag, the Category cell, and the numeric
cells indexed by column name (none models a missing value). -/
structure RawRow where
  outlet : String
  category : String
  num : String → Option ℚ

/-- Wide-format table: the list of column names of the frame together with
its rows.  The Outlet and Category columns are reached through the row
fields; metric columns are reached through num. -/
structure RawTable where
  cols : List String
  rows : List RawRow

/-- Molten row of one metric, before the merge: key columns plus the bucket
label derived from the column name and the raw cell. -/
structure MeltRow where
  outlet : String
  category : String
  bucket : String
  v : Option ℚ
deriving DecidableEq

/-- Normalized long row produced by transform_data: bucket is none when the
categorical cast turned a non-canonical label into NaN; the two metrics are
already zero-filled. -/
structure LongRow where
  outlet : String
  category : String
  bucket : Option String
  qty : ℚ
  value : ℚ
deriving DecidableEq, Repr

/-- Row of the grouped table df_filtered_long_grouped. -/
structure GroupedRow where
  category : String
  bucket : String
  qty : ℚ
  value : ℚ
deriving DecidableEq, Repr

/-- Custom order of the aging buckets, line 111 of variance.py. -/
def age_order : List String := ["61-90", "91-120", "121-180", "181-360"]

/-- Melt of the Qty columns, lines 88 to 95: every column whose name
contains Qty is a value_var, and the bucket label is the column name with
the literal substring " Aging Qty" deleted. -/
def meltQty (t : RawTable) : List MeltRow :=
  (t.cols.filter (fun c => strContains c "Qty")).flatMap (fun c =>
    t.rows.map (fun w =>
      { outlet := w.outlet, category := w.category
        bucket := strReplace c " Aging Qty" "", v := w.num c }))

/-- Melt of the Value columns, lines 97 to 105, symmetric to meltQty. -/
def meltValue (t : RawTable) : List MeltRow :=
  (t.cols.filter (fun c => strContains c "Value")).flatMap (fun c =>
    t.rows.map (fun w =>
      { outlet := w.outlet, category := w.category
        bucket := strReplace c " Aging Value" "", v := w.num c }))

/-- Categorical cast of line 112: labels outside age_order become NaN. -/
def castBucket (s : String) : Option String :=
  if s ∈ age_order then some s else none

/-- Inner merge of line 108 followed by the categorical cast of line 112
and the fillna of lines 115 and 116.  pd.merge with the default how keeps,
for each left (Qty) row, the matching right (Value) rows. -/
def mergeLong (qs vs : List MeltRow) : List LongRow :=
  qs.flatMap (fun q =>
    (vs.filter (fun v =>
        v.outlet == q.outlet && v.category == q.category && v.bucket == q.bucket)).map
      (fun v =>
        { outlet := q.outlet, category := q.category
          bucket := castBucket q.bucket
          qty := q.v.getD 0, value := v.v.getD 0 }))

/-- transform_data, lines 79 to 118.  An empty frame short-circuits to an
empty result; a nonempty frame without an Outlet or Category column makes
df.melt raise KeyError, modelled as none; otherwise the result is the
melt-merge-cast-fillna chain. -/
def transform_data (t : RawTable) : Option (List LongRow) :=
  if t.rows.isEmpty then some []
  else if "Outlet" ∈ t.cols ∧ "Category" ∈ t.cols then
    some (mergeLong (meltQty t) (meltValue t))
  else none

/-- Outlet catalog of lines 9 to 27. -/
def OUTLET_FILES : List (String × String) :=
  [("AML", "AML.xlsx"), ("ATT", "AZT.xlsx"), ("AZR", "AZR.xlsx"),
   ("BPS", "BPS.xlsx"), ("FAH", "FAH.xlsx"), ("HAD", "HAD.xlsx"),
   ("HAM", "HAM.xlsx"), ("JZS", "JZS.xlsx"), ("LWN", "LWN.xlsx"),
   ("MSS", "MSS.xlsx"), ("SAD", "SAD.xlsx"), ("SAM", "SAM.xlsx"),
   ("SAO", "SAO.xlsx"), ("SBM", "SBM.xlsx"), ("SML", "SML.xlsx"),
   ("SPS", "SPS.xlsx"), ("TTD", "TTD.xlsx")]

/-- Outlet codes in catalog order, line 28. -/
def ALL_OUTLETS : List String := OUTLET_FILES.map Prod.fst

/-- Sentinel option of line 30. -/
def AGGREGATE_OPTION : String := "ALL OUTLETS (Aggregated)"

/-- Content of one spreadsheet as read by pd.read_excel: column names and
rows, the Category cell separated out, metric cells indexed by name. -/
structure FileRow where
  category : String
  num : String → Option ℚ

/-- Parsed spreadsheet file. -/
structure FileTable where
  cols : List String
  rows : List FileRow

/-- Line 60: tag every row of a freshly read frame with its outlet code,
appending the Outlet column.  Cells of columns the file does not declare
read as NaN, matching the column alignment pd.concat performs later. -/
def tagOutlet (code : String) (f : FileTable) : RawTable :=
  { cols := f.cols ++ ["Outlet"]
    rows := f.rows.map (fun r =>
      { outlet := code, category := r.category
        num := fun c => if c ∈ f.cols then r.num c else none }) }

/-- pd.concat of line 69: union of the column lists and concatenation of
the rows. -/
def concatTables (ts : List RawTable) : RawTable :=
  { cols := (ts.flatMap RawTable.cols).dedup
    rows := ts.flatMap RawTable.rows }

/-- Body of the per-outlet loop of lines 53 to 65: look the code up in the
catalog (a missing or falsy file name is skipped), read the file through
the ambient file system fs, and tag the frame; none models every skipped
case (unknown code, empty file name, read failure caught by the except
arms). -/
def readOutlet (fs : String → Option FileTable) (code : String) : Option RawTable :=
  match OUTLET_FILES.lookup code with
  | none => none
  | some fn => if fn = "" then none else (fs fn).map (tagOutlet code)

/-- Empty DataFrame returned on the failure paths of load_data. -/
def emptyTable : RawTable := { cols := [], rows := [] }

/-- Loop and concatenation of lines 48 to 73, parametrized by the list of
outlets to load: skipped outlets contribute nothing, and when nothing
loads the result is the empty frame. -/
def load_outlets (fs : String → Option FileTable) (outlets : List String) : RawTable :=
  if outlets.isEmpty then emptyTable
  else if (outlets.filterMap (readOutlet fs)).isEmpty then emptyTable
  else concatTables (outlets.filterMap (readOutlet fs))

/-- load_data, lines 37 to 73: the aggregate option loads the whole
catalog, any other selection loads that single code. -/
def load_data (fs : String → Option FileTable) (sel : String) : RawTable :=
  load_outlets fs (if sel = AGGREGATE_OPTION then ALL_OUTLETS else [sel])

/-- Category filter of line 208. -/
def df_filtered_long (rows : List LongRow) (selectedCategories : List String) : List LongRow :=
  rows.filter (fun r => selectedCategories.contains r.category)

/-- Category levels of the grouped result: pandas factorizes the Category
column over every row, so categories observed only through null-bucket
rows still index the grouped output; null-bucket rows are excluded from
the group sums, not from the levels. -/
def groupCats (rows : List LongRow) : List String :=
  (rows.map LongRow.category).dedup

/-- Sum of the Qty metric over one (Category, Aging Bucket) group. -/
def sumQty (rows : List LongRow) (c b : String) : ℚ :=
  ((rows.filter (fun r => r.category == c && r.bucket == some b)).map LongRow.qty).sum

/-- Sum of the Value metric over one (Category, Aging Bucket) group. -/
def sumValue (rows : List LongRow) (c b : String) : ℚ :=
  ((rows.filter (fun r => r.category == c && r.bucket == some b)).map LongRow.value).sum

/-- Groupby-sum of line 211.  The bucket grouper is categorical, so with
the pandas default observed=False the result is reindexed to the product
of the observed Category levels and all four canonical buckets, empty
groups summing to zero; rows with a null bucket key fall into no group
and contribute to no sum. -/
def df_filtered_long_grouped (rows : List LongRow) : List GroupedRow :=
  (groupCats rows).flatMap (fun c =>
    age_order.map (fun b =>
      { category := c, bucket := b
        qty := sumQty rows c b, value := sumValue rows c b }))

/-- Reading of an already-normalized long table as a wide frame, used to
feed transform_data its own output: the frame has the five output columns,
and the numeric cells sit in the Qty and Value columns.  The Aging Bucket
column holds strings, hence no numeric cell. -/
def longToRaw (rs : List LongRow) : RawTable :=
  { cols := ["Outlet", "Category", "Aging Bucket", "Qty", "Value"]
    rows := rs.map (fun r =>
      { outlet := r.outlet, category := r.category
        num := fun c =>
          if c = "Qty" then some r.qty
          else if c = "Value" then some r.value
          else none }) }

/-- Number of Qty columns of the frame whose derived bucket label is s. -/
def qtyColsForS (t : RawTable) (s : String) : Nat :=
  (t.cols.filter (fun c => strContains c "Qty")).countP
    (fun c => strReplace c " Aging Qty" "" == s)

/-- Number of Value columns of the frame whose derived bucket label is s. -/
def valColsForS (t : RawTable) (s : String) : Nat :=
  (t.cols.filter (fun c => strContains c "Value")).countP
    (fun c => strReplace c " Aging Value" "" == s)

/-- Number of wide rows carrying the key (o, c). -/
def rowsFor (t : RawTable) (o c : String) : Nat :=
  t.rows.countP (fun w => w.outlet == o && w.category == c)

/-- Number of long rows carrying the key (o, c, ob). -/
def keyCount (out : List LongRow) (o c : String) (ob : Option String) : Nat :=
  out.countP (fun r => r.outlet == o && r.category == c && r.bucket == ob)

/-- Wide table with a Qty column for bucket 61-90 and no Value column. -/
def exC1 : RawTable :=
  { cols := ["Category", "61-90 Aging Qty", "Outlet"]
    rows := [{ outlet := "O1", category := "Phones"
               num := fun c => if c = "61-90 Aging Qty" then some 5 else none }] }

/-- Wide table whose Qty column name carries a typo after the bucket label
and whose Value column is well formed. -/
def exC2 : RawTable :=
  { cols := ["Category", "181-360 Agir Qty", "181-360 Aging Value", "Outlet"]
    rows := [{ outlet := "O1", category := "Phones"
               num := fun c =>
                 if c = "181-360 Agir Qty" then some 5
                 else if c = "181-360 Aging Value" then some 7 else none }] }

/-- Wide table with unique (Outlet, Category) keys, one Qty column for
bucket 91-120 and no Value column at all. -/
def exC3 : RawTable :=
  { cols := ["Category", "91-120 Aging Qty", "Outlet"]
    rows := [{ outlet := "O1", category := "Shoes"
               num := fun c => if c = "91-120 Aging Qty" then some 4 else none }] }

/-- Wide table whose single metric pair derives the non-canonical bucket
label Foo. -/
def exC4 : RawTable :=
  { cols := ["Category", "Foo Aging Qty", "Foo Aging Value", "Outlet"]
    rows := [{ outlet := "O1", category := "Phones"
               num := fun c =>
                 if c = "Foo Aging Qty" then some 2
                 else if c = "Foo Aging Value" then some 7 else none }] }

/-- Second wide table with a non-canonical bucket label, used to show the
normalized row survives while the grouped table ignores it. -/
def exC4b : RawTable :=
  { cols := ["Category", "Bar Aging Qty", "Bar Aging Value", "Outlet"]
    rows := [{ outlet := "O2", category := "Shoes"
               num := fun c =>
                 if c = "Bar Aging Qty" then some 1
                 else if c = "Bar Aging Value" then some 3 else none }] }

/-- Wide table containing a sentinel TOTAL category row. -/
def exC8 : RawTable :=
  { cols := ["Category", "61-90 Aging Qty", "61-90 Aging Value", "Outlet"]
    rows := [{ outlet := "O1", category := "TOTAL"
               num := fun c =>
                 if c = "61-90 Aging Qty" then some 4
                 else if c = "61-90 Aging Value" then some 9 else none }] }

/-- Nonempty parsed table without a Category column. -/
def exC9 : RawTable :=
  { cols := ["Foo", "Outlet"]
    rows := [{ outlet := "O1", category := "X", num := fun _ => none }] }

/-- Normalized long table with one row, fed back into transform_data. -/
def exC10 : List LongRow :=
  [{ outlet := "A", category := "Phones", bucket := some "61-90", qty := 5, value := 100 }]

/-- File of outlet AML for the aggregation example: Phones, bucket 61-90,
Qty 5, Value 100. -/
def fileA : FileTable :=
  { cols := ["Category", "61-90 Aging Qty", "61-90 Aging Value"]
    rows := [{ category := "Phones"
               num := fun c =>
                 if c = "61-90 Aging Qty" then some 5
                 else if c = "61-90 Aging Value" then some 100 else none }] }

/-- File of outlet ATT for the aggregation example: Phones, bucket 61-90,
Qty 3, Value 50. -/
def fileB : FileTable :=
  { cols := ["Category", "61-90 Aging Qty", "61-90 Aging Value"]
    rows := [{ category := "Phones"
               num := fun c =>
                 if c = "61-90 Aging Qty" then some 3
                 else if c = "61-90 Aging Value" then some 50 else none }] }

/-- File system of the aggregation example: the catalog file of AML reads
as fileA, the catalog file of ATT reads as fileB, all other reads fail. -/
def exFs : String → Option FileTable := fun n =>
  if n = "AML.xlsx" then some fileA
  else if n = "AZT.xlsx" then some fileB
  else none

/-- Long table that loading and transforming the two example files yields. -/
def exC6long : List LongRow :=
  [{ outlet := "AML", category := "Phones", bucket := some "61-90", qty := 5, value := 100 },
   { outlet := "ATT", category := "Phones", bucket := some "61-90", qty := 3, value := 50 }]

/-- Well-formed one-row wide table with both metric columns for 61-90,
used to instantiate the general theorems. -/
def exC2w : RawTable :=
  { cols := ["Category", "61-90 Aging Qty", "61-90 Aging Value", "Outlet"]
    rows := [{ outlet := "O1", category := "P"
               num := fun c =>
                 if c = "61-90 Aging Qty" then some 1
                 else if c = "61-90 Aging Value" then some 2 else none }] }

/-- Second well-formed one-row wide table with both metric columns for
61-90, used to instantiate the key-cardinality theorem. -/
def exC3w : RawTable :=
  { cols := ["Category", "61-90 Aging Qty", "61-90 Aging Value", "Outlet"]
    rows := [{ outlet := "O2", category := "Q"
               num := fun c =>
                 if c = "61-90 Aging Qty" then some 1
                 else if c = "61-90 Aging Value" then some 2 else none }] }

theorem countP_flatMap (l : List α) (f : α → List β) (p : β → Bool) :
    (l.flatMap f).countP p = (l.map (fun a => (f a).countP p)).sum := by
  induction l with
  | nil => simp
  | cons a l ih => simp [List.flatMap_cons, List.countP_append, ih]

theorem sum_map_ite (l : List α) (p : α → Bool) (K : Nat) :
    (l.map (fun a => if p a then K else 0)).sum = l.countP p * K := by
  induction l with
  | nil => simp
  | cons a l ih =>
    cases h : p a
    · simp [List.countP_cons, h, ih]
    · simp [List.countP_cons, h, ih, Nat.succ_mul]
      omega

theorem countP_and_const (l : List α) (k : Bool) (p : α → Bool) :
    l.countP (fun a => k && p a) = if k then l.countP p else 0 := by
  cases k
  · simp [List.countP_eq_zero]
  · simp

theorem countP_const_and (l : List α) (k : Bool) (p : α → Bool) :
    l.countP (fun a => p a && k) = if k then l.countP p else 0 := by
  cases k
  · simp [List.countP_eq_zero]
  · simp

theorem castBucket_eq_some {s b : String} :
    castBucket s = some b ↔ s = b ∧ b ∈ age_order := by
  unfold castBucket
  split
  case isTrue h =>
    simp only [Option.some_inj]
    constructor
    · rintro rfl; exact ⟨rfl, h⟩
    · exact fun hh => hh.1
  case isFalse h =>
    constructor
    · intro hc; cases hc
    · rintro ⟨rfl, hmem⟩; exact absurd hmem h

theorem castBucket_beq (b : String) (hb : b ∈ age_order) (s : String) :
    (castBucket s == some b) = (s == b) := by
  cases h : s == b
  · have hne : s ≠ b := by simpa using h
    cases hc : castBucket s with
    | none => simp
    | some x =>
      have : s = x := (castBucket_eq_some.mp hc).1
      subst this
      simpa using hne
  · have he : s = b := by simpa using h
    subst he
    simp [castBucket, hb]

theorem meltQty_countP (t : RawTable) (o c s : String) :
    (meltQty t).countP
        (fun q => q.outlet == o && q.category == c && q.bucket == s) =
      qtyColsForS t s * rowsFor t o c := by
  unfold meltQty qtyColsForS rowsFor
  rw [countP_flatMap]
  have h1 : ∀ cq ∈ t.cols.filter (fun c => strContains c "Qty"),
      ((t.rows.map (fun w =>
        ({ outlet := w.outlet, category := w.category
           bucket := strReplace cq " Aging Qty" "", v := w.num cq } : MeltRow))).countP
        (fun q => q.outlet == o && q.category == c && q.bucket == s)) =
      if strReplace cq " Aging Qty" "" == s then
        t.rows.countP (fun w => w.outlet == o && w.category == c) else 0 := by
    intro cq _
    rw [List.countP_map, ← countP_const_and]
    congr 1
  rw [List.map_congr_left h1, sum_map_ite]

theorem meltValue_countP (t : RawTable) (o c s : String) :
    (meltValue t).countP
        (fun q => q.outlet == o && q.category == c && q.bucket == s) =
      valColsForS t s * rowsFor t o c := by
  unfold meltValue valColsForS rowsFor
  rw [countP_flatMap]
  have h1 : ∀ cv ∈ t.cols.filter (fun c => strContains c "Value"),
      ((t.rows.map (fun w =>
        ({ outlet := w.outlet, category := w.category
           bucket := strReplace cv " Aging Value" "", v := w.num cv } : MeltRow))).countP
        (fun q => q.outlet == o && q.category == c && q.bucket == s)) =
      if strReplace cv " Aging Value" "" == s then
        t.rows.countP (fun w => w.outlet == o && w.category == c) else 0 := by
    intro cv _
    rw [List.countP_map, ← countP_const_and]
    congr 1
  rw [List.map_congr_left h1, sum_map_ite]

theorem mergeLong_keyCount (qs vs : List MeltRow) (o c b : String)
    (hb : b ∈ age_order) :
    keyCount (mergeLong qs vs) o c (some b) =
      qs.countP (fun q => q.outlet == o && q.category == c && q.bucket == b) *
      vs.countP (fun v => v.outlet == o && v.category == c && v.bucket == b) := by
  unfold keyCount mergeLong
  rw [countP_flatMap]
  have h1 : ∀ q ∈ qs,
      (((vs.filter (fun v =>
          v.outlet == q.outlet && v.category == q.category && v.bucket == q.bucket)).map
        (fun v =>
          ({ outlet := q.outlet, category := q.category
             bucket := castBucket q.bucket
             qty := q.v.getD 0, value := v.v.getD 0 } : LongRow))).countP
        (fun r => r.outlet == o && r.category == c && r.bucket == some b)) =
      if q.outlet == o && q.category == c && q.bucket == b then
        vs.countP (fun v => v.outlet == o && v.category == c && v.bucket == b) else 0 := by
    intro q _
    rw [List.countP_map, List.countP_filter]
    have hpt : ∀ v : MeltRow,
        (((fun r : LongRow => r.outlet == o && r.category == c && r.bucket == some b) ∘
           (fun v : MeltRow =>
             ({ outlet := q.outlet, category := q.category
                bucket := castBucket q.bucket
                qty := q.v.getD 0, value := v.v.getD 0 } : LongRow))) v &&
          (v.outlet == q.outlet && v.category == q.category && v.bucket == q.bucket)) =
        ((q.outlet == o && q.category == c && q.bucket == b) &&
          (v.outlet == o && v.category == c && v.bucket == b)) := by
      intro v
      show ((q.outlet == o && q.category == c && (castBucket q.bucket == some b)) &&
        (v.outlet == q.outlet && v.category == q.category && v.bucket == q.bucket)) = _
      rw [castBucket_beq b hb, Bool.eq_iff_iff]
      simp only [Bool.and_eq_true, beq_iff_eq]
      constructor
      · rintro ⟨hkey, ⟨⟨h4, h5⟩, h6⟩⟩
        exact ⟨hkey, ⟨⟨h4.trans hkey.1.1, h5.trans hkey.1.2⟩, h6.trans hkey.2⟩⟩
      · rintro ⟨hkey, ⟨⟨h4, h5⟩, h6⟩⟩
        exact ⟨hkey, ⟨⟨h4.trans hkey.1.1.symm, h5.trans hkey.1.2.symm⟩, h6.trans hkey.2.symm⟩⟩
    rw [List.countP_congr (fun v _ => by rw [hpt v]), countP_and_const]
  rw [List.map_congr_left h1, sum_map_ite]

theorem mem_transform (t : RawTable) (out : List LongRow) (r : LongRow)
    (hout : transform_data t = some out) (hr : r ∈ out) :
    ∃ cq ∈ t.cols, strContains cq "Qty" = true ∧
      r.bucket = castBucket (strReplace cq " Aging Qty" "") ∧
      (∃ cv ∈ t.cols, strContains cv "Value" = true ∧
        strReplace cv " Aging Value" "" = strReplace cq " Aging Qty" "") ∧
      ∃ w ∈ t.rows, r.outlet = w.outlet ∧ r.category = w.category := by
  unfold transform_data at hout
  split at hout
  · cases hout
    cases hr
  · split at hout
    · cases hout
      simp only [mergeLong, List.mem_flatMap, List.mem_map, List.mem_filter] at hr
      obtain ⟨q, hq, v, ⟨hv, hmatch⟩, rfl⟩ := hr
      simp only [meltQty, List.mem_flatMap, List.mem_map, List.mem_filter] at hq
      obtain ⟨cq, ⟨hcqcols, hcqQ⟩, w, hw, rfl⟩ := hq
      simp only [meltValue, List.mem_flatMap, List.mem_map, List.mem_filter] at hv
      obtain ⟨cv, ⟨hcvcols, hcvV⟩, w2, hw2, rfl⟩ := hv
      simp only [Bool.and_eq_true, beq_iff_eq] at hmatch
      exact ⟨cq, hcqcols, hcqQ, rfl, ⟨cv, hcvcols, hcvV, hmatch.2⟩, w, hw, rfl, rfl⟩
    · cases hout

theorem grouped_mem (rows : List LongRow) (c b : String)
    (hc : c ∈ groupCats rows) (hb : b ∈ age_order) :
    ({ category := c, bucket := b
       qty := sumQty rows c b, value := sumValue rows c b } : GroupedRow) ∈
      df_filtered_long_grouped rows := by
  unfold df_filtered_long_grouped
  simp only [List.mem_flatMap, List.mem_map]
  exact ⟨c, hc, b, hb, rfl⟩

theorem grouped_shape (rows : List LongRow) (g : GroupedRow)
    (hg : g ∈ df_filtered_long_grouped rows) :
    g.category ∈ groupCats rows ∧ g.bucket ∈ age_order ∧
      g.qty = sumQty rows g.category g.bucket ∧
      g.value = sumValue rows g.category g.bucket := by
  unfold df_filtered_long_grouped at hg
  simp only [List.mem_flatMap, List.mem_map] at hg
  obtain ⟨c, hc, b, hb, rfl⟩ := hg
  exact ⟨hc, hb, rfl, rfl⟩

theorem age_order_countP_self (b : String) (hb : b ∈ age_order) :
    age_order.countP (fun b2 => b2 == b) = 1 := by
  have hnd : age_order.Nodup := by decide
  exact List.count_eq_one_of_mem hnd hb

theorem grouped_countP (rows : List LongRow) (c b : String)
    (hc : c ∈ groupCats rows) (hb : b ∈ age_order) :
    (df_filtered_long_grouped rows).countP
      (fun g => g.category == c && g.bucket == b) = 1 := by
  unfold df_filtered_long_grouped
  rw [countP_flatMap]
  have h1 : ∀ c2 ∈ groupCats rows,
      ((age_order.map (fun b2 =>
        ({ category := c2, bucket := b2
           qty := sumQty rows c2 b2, value := sumValue rows c2 b2 } : GroupedRow))).countP
        (fun g => g.category == c && g.bucket == b)) =
      if c2 == c then 1 else 0 := by
    intro c2 _
    rw [List.countP_map]
    show age_order.countP (fun b2 => (c2 == c) && (b2 == b)) = _
    rw [countP_and_const, age_order_countP_self b hb]
  rw [List.map_congr_left h1, sum_map_ite, Nat.mul_one]
  have hnd : (groupCats rows).Nodup := List.nodup_dedup _
  exact List.count_eq_one_of_mem hnd hc

/-- C1: the claim asserts the outer-join property, that a key present in
the melted quantity table but absent from the melted value table still
yields a row with the absent metric zero.  The code uses pd.merge with the
default inner join: on a wide table whose 61-90 bucket has a Qty column
and no Value column at all, transform_data returns an empty table, so the
(O1, Phones, 61-90) key with Qty 5 is dropped instead of kept with Value
zero.  This evaluates the code at the failing input. -/
theorem c1_qty_only_key_dropped : transform_data exC1 = some [] := by decide

/-- C2: counterexample to the claim that a column named 181-360 Agir Qty
is still assigned bucket 181-360 by canonical-substring matching.  The
code derives the bucket by deleting the literal suffix string, so the typo
column keeps its full name as bucket label, matches no Value column, and
the table transforms to an empty result rather than to a row with bucket
181-360 and Qty 5. -/
theorem c2_counterexample :
    transform_data exC2 = some [] ∧ strContains "181-360 Agir Qty" "Qty" = true := by
  constructor
  · decide
  · decide

/-- C2 amended: transform_data derives a bucket label by deleting the
literal substring " Aging Qty" (resp. " Aging Value") from a column name
containing Qty (resp. Value); a row is emitted only when a Qty column and
a Value column derive the same label, and the label is then nulled by the
categorical cast unless it is canonical.  In particular the typo column
181-360 Agir Qty keeps a non-canonical label (it is not recognized as
bucket 181-360), and a column matching no canonical label never reaches a
canonical bucket; no error is raised, the column is simply absent from
every emitted row with a canonical bucket. -/
theorem c2_bucket_from_suffix_strip :
    (∀ (t : RawTable) (out : List LongRow) (r : LongRow),
        transform_data t = some out → r ∈ out →
        ∃ cq ∈ t.cols, strContains cq "Qty" = true ∧
          r.bucket = castBucket (strReplace cq " Aging Qty" "") ∧
          ∃ cv ∈ t.cols, strContains cv "Value" = true ∧
            strReplace cv " Aging Value" "" = strReplace cq " Aging Qty" "") ∧
    castBucket (strReplace "181-360 Agir Qty" " Aging Qty" "") = none := by
  constructor
  · intro t out r hout hr
    obtain ⟨cq, hcq, hQ, hbkt, ⟨cv, hcv, hV, heq⟩, _⟩ :=
      mem_transform t out r hout hr
    exact ⟨cq, hcq, hQ, hbkt, cv, hcv, hV, heq⟩
  · decide

/-- C2 witness: the general conjunct of the amended claim instantiated at
a concrete well-formed table with one emitted row. -/
theorem c2_witness :
    ∃ cq ∈ exC2w.cols, strContains cq "Qty" = true ∧
      (({ outlet := "O1", category := "P", bucket := some "61-90"
          qty := 1, value := 2 } : LongRow)).bucket =
        castBucket (strReplace cq " Aging Qty" "") ∧
      ∃ cv ∈ exC2w.cols, strContains cv "Value" = true ∧
        strReplace cv " Aging Value" "" = strReplace cq " Aging Qty" "" :=
  c2_bucket_from_suffix_strip.1 exC2w
    [{ outlet := "O1", category := "P", bucket := some "61-90", qty := 1, value := 2 }]
    { outlet := "O1", category := "P", bucket := some "61-90", qty := 1, value := 2 }
    (by decide) (by decide)

/-- C3: counterexample to the claim that the normalized table has exactly
one row per (Outlet, Category, canonical bucket) combination present in
the wide source.  The table exC3 has unique (Outlet, Category) keys, at
most one Qty and at most one Value column per canonical bucket, and its
91-120 bucket is present through a Qty column, yet transform_data drops
the combination entirely: the inner merge finds no Value partner. -/
theorem c3_counterexample :
    transform_data exC3 = some [] ∧ "91-120 Aging Qty" ∈ exC3.cols := by
  constructor
  · decide
  · decide

/-- C3 amended: for a wide frame with unique (Outlet, Category) keys and
at most one Qty and one Value column deriving each canonical bucket, the
(Outlet, Category, AgingBucket) triple is a unique key of the normalized
table, and the number of rows a wide row contributes for a canonical
bucket equals the product of the Qty-column and Value-column counts for
that bucket: one row when the bucket has both columns, zero rows when it
has only one (the inner merge drops one-sided combinations, against the
original claim); every output row traces back to some wide row. -/
theorem c3_unique_key_cardinality (t : RawTable) (out : List LongRow)
    (hout : transform_data t = some out)
    (huniq : ∀ w ∈ t.rows, rowsFor t w.outlet w.category = 1)
    (hq : ∀ b ∈ age_order, qtyColsForS t b ≤ 1)
    (hv : ∀ b ∈ age_order, valColsForS t b ≤ 1) :
    (∀ w ∈ t.rows, ∀ b ∈ age_order,
        keyCount out w.outlet w.category (some b) =
          qtyColsForS t b * valColsForS t b ∧
        keyCount out w.outlet w.category (some b) ≤ 1) ∧
    (∀ r ∈ out, ∃ w ∈ t.rows, r.outlet = w.outlet ∧ r.category = w.category) := by
  constructor
  · intro w hw b hb
    have hne : t.rows.isEmpty = false := by
      cases hrows : t.rows with
      | nil => rw [hrows] at hw; cases hw
      | cons x xs => rfl
    unfold transform_data at hout
    rw [hne] at hout
    simp only [Bool.false_eq_true, if_false] at hout
    split at hout
    · cases hout
      have hkey : keyCount (mergeLong (meltQty t) (meltValue t))
          w.outlet w.category (some b) = qtyColsForS t b * valColsForS t b := by
        rw [mergeLong_keyCount _ _ _ _ _ hb, meltQty_countP, meltValue_countP,
          huniq w hw, Nat.mul_one, Nat.mul_one]
      exact ⟨hkey, hkey ▸ Left.mul_le_one (hq b hb) (hv b hb)⟩
    · cases hout
  · intro r hr
    obtain ⟨cq, hcq, hQ, hbkt, hcv, w, hw, ho, hcat⟩ :=
      mem_transform t out r hout hr
    exact ⟨w, hw, ho, hcat⟩

/-- C3 witness: the key-cardinality theorem instantiated at a concrete
one-row table whose 61-90 bucket has both metric columns. -/
theorem c3_witness :
    (∀ w ∈ exC3w.rows, ∀ b ∈ age_order,
        keyCount [{ outlet := "O2", category := "Q", bucket := some "61-90"
                    qty := 1, value := 2 }] w.outlet w.category (some b) =
          qtyColsForS exC3w b * valColsForS exC3w b ∧
        keyCount [{ outlet := "O2", category := "Q", bucket := some "61-90"
                    qty := 1, value := 2 }] w.outlet w.category (some b) ≤ 1) ∧
    (∀ r ∈ [({ outlet := "O2", category := "Q", bucket := some "61-90"
               qty := 1, value := 2 } : LongRow)],
        ∃ w ∈ exC3w.rows, r.outlet = w.outlet ∧ r.category = w.category) :=
  c3_unique_key_cardinality exC3w
    [{ outlet := "O2", category := "Q", bucket := some "61-90", qty := 1, value := 2 }]
    (by decide) (by decide) (by decide) (by decide)

/-- C4: counterexample to the claim that rows with a non-canonical derived
bucket are never present in the normalized output of transform_data.  A
Qty/Value column pair deriving the label Foo survives the merge, and the
categorical cast leaves the row in the table with a null bucket instead of
discarding it. -/
theorem c4_counterexample :
    transform_data exC4 =
      some [{ outlet := "O1", category := "Phones", bucket := none
              qty := 2, value := 7 }] := by decide

/-- C4 amended: rows with a non-canonical derived bucket stay in the
normalized table with a null Aging Bucket, but the groupby stage never
sums them: a table whose only row has a null bucket groups to the four
zero rows of its category (its Qty 1 and Value 3 reach no sum), and every
grouped row carries a canonical bucket. -/
theorem c4_null_bucket_rows :
    transform_data exC4b =
      some [{ outlet := "O2", category := "Shoes", bucket := none
              qty := 1, value := 3 }] ∧
    df_filtered_long_grouped
        [{ outlet := "O2", category := "Shoes", bucket := none, qty := 1, value := 3 }] =
      [{ category := "Shoes", bucket := "61-90", qty := 0, value := 0 },
       { category := "Shoes", bucket := "91-120", qty := 0, value := 0 },
       { category := "Shoes", bucket := "121-180", qty := 0, value := 0 },
       { category := "Shoes", bucket := "181-360", qty := 0, value := 0 }] ∧
    (∀ (rows : List LongRow), ∀ g ∈ df_filtered_long_grouped rows, g.bucket ∈ age_order) := by
  refine ⟨by decide, ?_, ?_⟩
  · simp [df_filtered_long_grouped, groupCats, sumQty, sumValue, age_order]
  · intro rows g hg
    exact (grouped_shape rows g hg).2.1

/-- C4 witness: the canonical-bucket conjunct of the amended claim
instantiated at a concrete grouped row. -/
theorem c4_witness :
    (({ category := "P", bucket := "61-90"
        qty := sumQty
          [{ outlet := "A", category := "P", bucket := some "61-90", qty := 1, value := 2 }]
          "P" "61-90"
        value := sumValue
          [{ outlet := "A", category := "P", bucket := some "61-90", qty := 1, value := 2 }]
          "P" "61-90" } : GroupedRow)).bucket ∈ age_order :=
  c4_null_bucket_rows.2.2
    [{ outlet := "A", category := "P", bucket := some "61-90", qty := 1, value := 2 }]
    _
    (grouped_mem
      [{ outlet := "A", category := "P", bucket := some "61-90", qty := 1, value := 2 }]
      "P" "61-90" (by decide) (by decide))

/-- C5: a source whose read fails (or whose code is unknown to the
catalog) is skipped and the remaining outlets load exactly as if it had
not been requested; an empty request list yields the empty frame; when
every requested source fails the result is the empty frame; and
transform_data accepts the empty frame, returning the empty long table
instead of failing. -/
theorem c5_load_degrades_gracefully :
    (∀ (fs : String → Option FileTable) (a : String) (rest : List String),
        readOutlet fs a = none →
        load_outlets fs (a :: rest) = load_outlets fs rest) ∧
    (∀ fs : String → Option FileTable, load_outlets fs [] = emptyTable) ∧
    (∀ (fs : String → Option FileTable) (outlets : List String),
        (∀ a ∈ outlets, readOutlet fs a = none) →
        load_outlets fs outlets = emptyTable) ∧
    transform_data emptyTable = some [] := by
  refine ⟨?_, ?_, ?_, rfl⟩
  · intro fs a rest hskip
    cases rest with
    | nil => simp [load_outlets, hskip, emptyTable]
    | cons x xs =>
      simp only [load_outlets, List.isEmpty_cons, Bool.false_eq_true, if_false]
      rw [List.filterMap_cons_none hskip]
  · intro fs
    rfl
  · intro fs outlets hall
    cases outlets with
    | nil => rfl
    | cons x xs =>
      have h0 : (x :: xs).filterMap (readOutlet fs) = [] :=
        List.filterMap_eq_nil_iff.mpr hall
      simp [load_outlets, h0]

/-- C5 witness: loading one outlet through a file system on which every
read fails yields the empty frame. -/
theorem c5_witness :
    load_outlets (fun _ => none) ["AML"] = emptyTable :=
  c5_load_degrades_gracefully.2.2.1 (fun _ => none) ["AML"]
    (by
      intro a ha
      simp only [List.mem_singleton] at ha
      subst ha
      rfl)

/-- C6: the grouped table sums each metric per (Category, Aging Bucket)
group, collapsing Outlet: every in-scope category and canonical bucket
yields exactly one grouped row, holding the group sums.  Concretely,
loading the two example outlet files (Phones 61-90, Qty 5 / Value 100 and
Qty 3 / Value 50), transforming and grouping yields the single combined
row Phones, 61-90, Qty 8, Value 150 (plus the zero rows the categorical
grouper emits for the other three buckets), and the aggregated Value
total equals the sum of the Value cells of the two source files. -/
theorem c6_aggregation_sums :
    (∀ (rows : List LongRow) (c b : String), b ∈ age_order → c ∈ groupCats rows →
        (df_filtered_long_grouped rows).countP
            (fun g => g.category == c && g.bucket == b) = 1 ∧
        ({ category := c, bucket := b
           qty := sumQty rows c b, value := sumValue rows c b } : GroupedRow) ∈
          df_filtered_long_grouped rows) ∧
    transform_data (load_outlets exFs ["AML", "ATT"]) = some exC6long ∧
    df_filtered_long_grouped (df_filtered_long exC6long ["Phones"]) =
      [{ category := "Phones", bucket := "61-90", qty := 8, value := 150 },
       { category := "Phones", bucket := "91-120", qty := 0, value := 0 },
       { category := "Phones", bucket := "121-180", qty := 0, value := 0 },
       { category := "Phones", bucket := "181-360", qty := 0, value := 0 }] ∧
    ((df_filtered_long_grouped (df_filtered_long exC6long ["Phones"])).map
        GroupedRow.value).sum = 100 + 50 := by
  have heq : df_filtered_long_grouped (df_filtered_long exC6long ["Phones"]) =
      [{ category := "Phones", bucket := "61-90", qty := 8, value := 150 },
       { category := "Phones", bucket := "91-120", qty := 0, value := 0 },
       { category := "Phones", bucket := "121-180", qty := 0, value := 0 },
       { category := "Phones", bucket := "181-360", qty := 0, value := 0 }] := by
    simp [df_filtered_long_grouped, df_filtered_long, groupCats, sumQty, sumValue,
      exC6long, age_order]
    norm_num
  refine ⟨?_, by decide, heq, ?_⟩
  · intro rows c b hb hc
    exact ⟨grouped_countP rows c b hc hb, grouped_mem rows c b hc hb⟩
  · rw [heq]
    norm_num

/-- C6 witness: the general grouping conjunct instantiated at the example
long table, in-scope category Phones and bucket 61-90. -/
theorem c6_witness :
    (df_filtered_long_grouped exC6long).countP
        (fun g => g.category == "Phones" && g.bucket == "61-90") = 1 ∧
    ({ category := "Phones", bucket := "61-90"
       qty := sumQty exC6long "Phones" "61-90"
       value := sumValue exC6long "Phones" "61-90" } : GroupedRow) ∈
      df_filtered_long_grouped exC6long :=
  c6_aggregation_sums.1 exC6long "Phones" "61-90" (by decide) (by decide)

/-- C7: grouping never drops a canonical bucket for an observed category,
even when the group sums are zero; categories with no in-scope row are
omitted.  Concretely, a long table whose only row has both metrics zero
still groups to a row for every canonical bucket, the observed bucket
included, all with zero sums. -/
theorem c7_zero_sum_buckets_kept :
    (∀ (rows : List LongRow) (c : String), c ∈ groupCats rows →
        ∀ b ∈ age_order,
          ({ category := c, bucket := b
             qty := sumQty rows c b, value := sumValue rows c b } : GroupedRow) ∈
            df_filtered_long_grouped rows) ∧
    (∀ (rows : List LongRow) (c : String), c ∉ groupCats rows →
        ∀ g ∈ df_filtered_long_grouped rows, g.category ≠ c) ∧
    df_filtered_long_grouped
        [{ outlet := "A", category := "P", bucket := some "61-90", qty := 0, value := 0 }] =
      [{ category := "P", bucket := "61-90", qty := 0, value := 0 },
       { category := "P", bucket := "91-120", qty := 0, value := 0 },
       { category := "P", bucket := "121-180", qty := 0, value := 0 },
       { category := "P", bucket := "181-360", qty := 0, value := 0 }] := by
  refine ⟨?_, ?_, ?_⟩
  · intro rows c hc b hb
    exact grouped_mem rows c b hc hb
  · intro rows c hc g hg hcat
    exact hc (hcat ▸ (grouped_shape rows g hg).1)
  · simp [df_filtered_long_grouped, groupCats, sumQty, sumValue, age_order]

/-- C7 witness: the zero-sum conjunct instantiated at a table observed
only in bucket 61-90, for the empty bucket 91-120. -/
theorem c7_witness :
    ({ category := "P", bucket := "91-120"
       qty := sumQty
         [{ outlet := "A", category := "P", bucket := some "61-90", qty := 0, value := 0 }]
         "P" "91-120"
       value := sumValue
         [{ outlet := "A", category := "P", bucket := some "61-90", qty := 0, value := 0 }]
         "P" "91-120" } : GroupedRow) ∈
      df_filtered_long_grouped
        [{ outlet := "A", category := "P", bucket := some "61-90", qty := 0, value := 0 }] :=
  c7_zero_sum_buckets_kept.1
    [{ outlet := "A", category := "P", bucket := some "61-90", qty := 0, value := 0 }]
    "P" (by decide) "91-120" (by decide)

/-- C8: the claim says a sentinel row with the literal TOTAL category is
excluded from normalization; the code filters no category, so the TOTAL
row flows through transform_data into the normalized output, and the
grouped table sums it like any category. -/
theorem c8_total_row_not_excluded :
    transform_data exC8 =
      some [{ outlet := "O1", category := "TOTAL", bucket := some "61-90"
              qty := 4, value := 9 }] ∧
    df_filtered_long_grouped
        [{ outlet := "O1", category := "TOTAL", bucket := some "61-90"
           qty := 4, value := 9 }] =
      [{ category := "TOTAL", bucket := "61-90", qty := 4, value := 9 },
       { category := "TOTAL", bucket := "91-120", qty := 0, value := 0 },
       { category := "TOTAL", bucket := "121-180", qty := 0, value := 0 },
       { category := "TOTAL", bucket := "181-360", qty := 0, value := 0 }] := by
  constructor
  · decide
  · simp [df_filtered_long_grouped, groupCats, sumQty, sumValue, age_order]

/-- C9: the claim says a source that parses but lacks a category column is
skipped with a warning and nothing in the pipeline is fatal; in the code a
nonempty frame without a Category column reaches df.melt, which raises an
uncaught KeyError (modelled by the none result of transform_data). -/
theorem c9_missing_category_crashes :
    transform_data exC9 = none ∧ exC9.rows.isEmpty = false := by
  constructor
  · decide
  · rfl

/-- C10: counterexample to idempotence of normalization: feeding the
normalized one-row table back through transform_data yields the empty
table, not the table itself, because the melted Qty and Value bucket
labels of the long schema (the literal column names Qty and Value) never
match in the inner merge. -/
theorem c10_counterexample :
    transform_data (longToRaw exC10) = some [] ∧ exC10 ≠ [] := by
  constructor
  · decide
  · decide

/-- C10 amended: transform_data is not idempotent; applied to any table
already in normalized long form it collapses the table to the empty
result, so the empty table is the only fixed point of renormalization. -/
theorem c10_renormalize_collapses (rs : List LongRow) :
    transform_data (longToRaw rs) = some [] := by
  cases rs with
  | nil => rfl
  | cons r rs =>
    have h1 : (longToRaw (r :: rs)).rows.isEmpty = false := rfl
    have h2 : "Outlet" ∈ (longToRaw (r :: rs)).cols := by
      show "Outlet" ∈ ["Outlet", "Category", "Aging Bucket", "Qty", "Value"]
      decide
    have h3 : "Category" ∈ (longToRaw (r :: rs)).cols := by
      show "Category" ∈ ["Outlet", "Category", "Aging Bucket", "Qty", "Value"]
      decide
    unfold transform_data
    rw [h1]
    simp only [Bool.false_eq_true, if_false]
    rw [if_pos ⟨h2, h3⟩]
    congr 1
    unfold mergeLong
    rw [List.flatMap_eq_nil_iff]
    intro q hq
    have hqb : q.bucket = "Qty" := by
      simp only [meltQty, List.mem_flatMap, List.mem_filter, List.mem_map] at hq
      obtain ⟨cq, ⟨hcq, hQ⟩, w, hw, rfl⟩ := hq
      have hc : cq = "Qty" := by
        have hcols : cq ∈ ["Outlet", "Category", "Aging Bucket", "Qty", "Value"] := hcq
        fin_cases hcols
        · exfalso; revert hQ; decide
        · exfalso; revert hQ; decide
        · exfalso; revert hQ; decide
        · rfl
        · exfalso; revert hQ; decide
      subst hc
      show strReplace "Qty" " Aging Qty" "" = "Qty"
      decide
    have hfilter : (meltValue (longToRaw (r :: rs))).filter
        (fun v => v.outlet == q.outlet && v.category == q.category &&
          v.bucket == q.bucket) = [] := by
      rw [List.filter_eq_nil_iff]
      intro v hv
      have hvb : v.bucket = "Value" := by
        simp only [meltValue, List.mem_flatMap, List.mem_filter, List.mem_map] at hv
        obtain ⟨cv, ⟨hcv, hV⟩, w, hw, rfl⟩ := hv
        have hc : cv = "Value" := by
          have hcols : cv ∈ ["Outlet", "Category", "Aging Bucket", "Qty", "Value"] := hcv
          fin_cases hcols
          · exfalso; revert hV; decide
          · exfalso; revert hV; decide
          · exfalso; revert hV; decide
          · exfalso; revert hV; decide
          · rfl
        subst hc
        show strReplace "Value" " Aging Value" "" = "Value"
        decide
      simp [hvb, hqb]
    rw [hfilter]
    rfl
